import Mathlib

/-!
Shallow embedding of the Dataform workflow orchestrator of this repository:
`scripts/run_dataform_workflow_env.py` (the ENV-aware "enterprise" runner,
the authority for the compile-bootstrap, transport and poll loop) and
`scripts/run_dataform_workflow.py` (the plain variant that creates the
invocation directly from the workflow-config name).

Remote I/O is modelled by an oracle supplying the HTTP responses the
service would return; every function also returns the ordered list of
requests it issued, so that claims about "how many write calls" and
"what precedes what" are claims about this request trace.

Time in the poll loop is idealised discretely: each fetch is instantaneous
and the only passage of time is `time.sleep(poll_sec)` at the bottom of the
loop body, so the fetch of iteration `i` happens at elapsed `i * poll_sec`
seconds, matching the scenario style of the specification (t = 0, 10, 20, ...).
-/

/-- JSON values as decoded by `requests.Response.json()`.  Numbers are
modelled as integers; no claim touches fractional JSON numbers. -/
inductive JValue where
  | null
  | str (s : String)
  | num (n : Int)
  | bool (b : Bool)
  | arr (xs : List JValue)
  | obj (fields : List (String × JValue))
deriving Repr, BEq

/-- Python truthiness of a JSON value (`bool(x)`):
None, "", 0, False, [], and the empty dict are falsy. -/
def JValue.falsy : JValue → Bool
  | .null => true
  | .str s => s = ""
  | .num n => n = 0
  | .bool b => !b
  | .arr xs => xs.isEmpty
  | .obj fields => fields.isEmpty

/-- `d.get(k)` on a decoded JSON object: `none` models Python `None`.
(A non-dict response would raise `AttributeError` in Python; no claim
exercises that path, and the model treats the key as absent.) -/
def JValue.get : JValue → String → Option JValue
  | .obj fields, k => fields.lookup k
  | _, _ => none

/-- `d.get(k, default)`. -/
def JValue.getD (v : JValue) (k : String) (default : JValue) : JValue :=
  (v.get k).getD default

/-- Truthiness of the result of `d.get(k)` (Python `not x` negated):
absent keys behave like `None`, i.e. falsy. -/
def jTruthy (v : Option JValue) : Bool :=
  match v with
  | none => false
  | some x => !x.falsy

/-- `isinstance(x, dict)` on the result of `d.get(k)`. -/
def jIsDict (v : Option JValue) : Bool :=
  match v with
  | some (.obj _) => true
  | _ => false

/-- Rendering of a JSON value inside a Python f-string.  Scalars are
rendered faithfully; containers are abbreviated, since every claim
instantiates resource names with strings and no claim depends on how a
container renders inside a URL or log line. -/
def JValue.pyRender : JValue → String
  | .null => "None"
  | .str s => s
  | .num n => toString n
  | .bool true => "True"
  | .bool false => "False"
  | .arr _ => "[...]"
  | .obj _ => "\x7b...\x7d"

/-- HTTP method of a request issued through the `requests` wrappers. -/
inductive HttpMethod where
  | get
  | post
  | patch
deriving Repr, DecidableEq

/-- One HTTP request as issued by the runner: method, full URL (query
string included, which is where the `updateMask` travels), and the JSON
body for writes. -/
structure HttpReq where
  method : HttpMethod
  url : String
  body : Option JValue
deriving Repr, BEq

/-- One HTTP response as the oracle supplies it: status code, raw text
(`r.text`, used in error messages) and decoded JSON (`r.json()`). -/
structure HttpResp where
  status : Nat
  text : String
  json : JValue
deriving Repr, BEq

/-- The failure taxonomy of the runner, one constructor per failure site
of `run_dataform_workflow_env.py`:
* `auth` — `google.auth.default` raised (no ambient identity); uncaught,
  Python exits 1;
* `remote` — a `RuntimeError` raised by `http_get`/`http_post`/`http_patch`
  on status ≥ 300, carrying status, URL, the body sent (absent for GET)
  and the body received; uncaught, Python exits 1;
* `configNoReleaseConfig` — `die` at main step 4: WorkflowConfig has no
  truthy `releaseConfig` field (exit 1);
* `configError relName field` — `die` in
  `create_compilation_result_for_release`: the ReleaseConfig named
  `relName` lacks a truthy `gitCommitish`, or its `codeCompilationConfig`
  is not a dict (exit 1);
* `protocolNoCompName` — `die`: CompilationResult created but the response
  carries no truthy `name` (exit 1);
* `protocolNoInvName` — `die`: WorkflowInvocation created but the response
  carries no truthy `name` (exit 1);
* `workflowFailed state` — `die(..., code=3)` in `poll_until_done` on a
  terminal state other than SUCCEEDED;
* `workflowTimeout timeoutSec` — `die(..., code=4)` in `poll_until_done`. -/
inductive RunnerError where
  | auth
  | remote (status : Nat) (url : String) (bodySent : Option JValue) (bodyReceived : String)
  | configNoReleaseConfig
  | configError (relName : JValue) (missingField : String)
  | protocolNoCompName
  | protocolNoInvName
  | workflowFailed (state : String)
  | workflowTimeout (timeoutSec : Int)
deriving Repr, BEq

/-- Process exit code of each failure, as the Python runtime produces it:
`die` uses its default `code=1` except at the two poll-loop sites, and an
uncaught exception (auth failure, `RuntimeError` from the transport) makes
the interpreter exit with code 1. -/
def exitCodeOf : RunnerError → Nat
  | .workflowFailed _ => 3
  | .workflowTimeout _ => 4
  | _ => 1

/-- Base URL constant `DATAFORM_API`. -/
def DATAFORM_API : String := "https://dataform.googleapis.com/v1beta1"

/-- `http_get(url, token)`: issues exactly one GET; returns the decoded
JSON on status < 300, otherwise raises carrying the URL, status and
response text (a GET sends no body). -/
def http_get (url : String) (resp : HttpResp) :
    List HttpReq × Except RunnerError JValue :=
  ([⟨.get, url, none⟩],
   if 300 ≤ resp.status then
     .error (.remote resp.status url none resp.text)
   else
     .ok resp.json)

/-- `http_post(url, token, body)`: issues exactly one POST; returns the
decoded JSON on status < 300, otherwise raises carrying URL, status, the
body sent and the response text. -/
def http_post (url : String) (body : JValue) (resp : HttpResp) :
    List HttpReq × Except RunnerError JValue :=
  ([⟨.post, url, some body⟩],
   if 300 ≤ resp.status then
     .error (.remote resp.status url (some body) resp.text)
   else
     .ok resp.json)

/-- `http_patch(url, token, body)`: issues exactly one PATCH; returns the
decoded JSON on status < 300, otherwise raises carrying URL, status, the
body sent and the response text. -/
def http_patch (url : String) (body : JValue) (resp : HttpResp) :
    List HttpReq × Except RunnerError JValue :=
  ([⟨.patch, url, some body⟩],
   if 300 ≤ resp.status then
     .error (.remote resp.status url (some body) resp.text)
   else
     .ok resp.json)

/-- `repo_path(project, location, repo)`. -/
def repo_path (project location repo : String) : String :=
  "projects/" ++ project ++ "/locations/" ++ location ++ "/repositories/" ++ repo

/-- `workflow_config_path(project, location, repo, workflow)`. -/
def workflow_config_path (project location repo workflow : String) : String :=
  repo_path project location repo ++ "/workflowConfigs/" ++ workflow

/-- `create_compilation_result_for_release(token, project, location, repo,
release_cfg)`: validates `gitCommitish` (truthy) and `codeCompilationConfig`
(a dict) before any I/O, then POSTs the compilation request and requires a
truthy `name` in the response.  Returns the request trace together with the
created CompilationResult name (as the JSON value of the response's `name`
field, which the caller then passes to the patch). -/
def create_compilation_result_for_release
    (project location repo : String) (release_cfg : JValue)
    (createResp : HttpResp) : List HttpReq × Except RunnerError JValue :=
  let rel_name := release_cfg.getD "name" (.str "")
  let git_commitish := release_cfg.get "gitCommitish"
  let code_comp_cfg := release_cfg.get "codeCompilationConfig"
  if !jTruthy git_commitish then
    ([], .error (.configError rel_name "gitCommitish"))
  else if !jIsDict code_comp_cfg then
    ([], .error (.configError rel_name "codeCompilationConfig"))
  else
    let url := DATAFORM_API ++ "/" ++ repo_path project location repo ++ "/compilationResults"
    let body : JValue := .obj
      [("gitCommitish", git_commitish.getD .null),
       ("codeCompilationConfig", code_comp_cfg.getD .null)]
    let res := http_post url body createResp
    (res.1,
     match res.2 with
     | .error e => .error e
     | .ok resp =>
       let comp_name := resp.get "name"
       if !jTruthy comp_name then
         .error .protocolNoCompName
       else
         .ok (comp_name.getD .null))

/-- `patch_release_config_set_compilation(token, release_cfg_name,
compilation_result_name)`: one PATCH whose URL query string restricts the
update mask to `releaseCompilationResult`, and whose body sets that field
to the created CompilationResult name. -/
def patch_release_config_set_compilation
    (release_cfg_name compilation_result_name : JValue)
    (patchResp : HttpResp) : List HttpReq × Except RunnerError Unit :=
  let url := DATAFORM_API ++ "/" ++ release_cfg_name.pyRender
              ++ "?updateMask=releaseCompilationResult"
  let body : JValue := .obj
    [("name", release_cfg_name),
     ("releaseCompilationResult", compilation_result_name)]
  let res := http_patch url body patchResp
  (res.1,
   match res.2 with
   | .error e => .error e
   | .ok _ => .ok ())

/-- Main step 5 of `run_dataform_workflow_env.py` (lines 372-381), the
compile-bootstrap the specification calls `ensure_compiled`: if the fetched
ReleaseConfig's `releaseCompilationResult` is truthy, do nothing; otherwise
create a CompilationResult and patch the ReleaseConfig.  The ReleaseConfig
value `rel` in scope is never rebound by `main`, so the value used for the
rest of the run is returned unchanged on every successful path. -/
def ensure_compiled (project location repo : String)
    (release_cfg_name rel : JValue)
    (createResp patchResp : HttpResp) : List HttpReq × Except RunnerError JValue :=
  let release_comp := rel.get "releaseCompilationResult"
  if jTruthy release_comp then
    ([], .ok rel)
  else
    let created := create_compilation_result_for_release project location repo rel createResp
    match created.2 with
    | .error e => (created.1, .error e)
    | .ok comp_name =>
      let patched := patch_release_config_set_compilation release_cfg_name comp_name patchResp
      (created.1 ++ patched.1,
       match patched.2 with
       | .error e => .error e
       | .ok _ => .ok rel)

/-- Outcome of `poll_until_done`: normal return on SUCCEEDED, `die(code=3)`
on another terminal state, `die(code=4)` on timeout. -/
inductive PollResult where
  | succeeded
  | failedState (state : String)
  | timeout (timeoutSec : Int)
deriving Repr, BEq, DecidableEq

/-- Terminal-state test of the poll loop:
`state in ("SUCCEEDED", "FAILED", "CANCELLED")`. -/
def isTerminalState (s : String) : Bool :=
  s = "SUCCEEDED" || s = "FAILED" || s = "CANCELLED"

/-- `poll_until_done(token, inv_name, timeout_sec, poll_sec)` with the
remote invocation state at fetch `i` supplied by the oracle `states i`.
Each iteration first GETs the invocation, then checks for a terminal state,
then compares elapsed time (`i * poll_sec`, strictly) against the timeout,
then sleeps.  `fuel` bounds the number of iterations of the source's
`while True`; `none` means the bound was reached with no outcome yet.
The request trace is returned even when fuel runs out. -/
def poll_until_done (inv_name : String) (states : Nat → String)
    (timeout_sec poll_sec : Int) :
    Nat → Nat → List HttpReq × Option PollResult
  | 0, _ => ([], none)
  | fuel + 1, i =>
    let req : HttpReq := ⟨.get, DATAFORM_API ++ "/" ++ inv_name, none⟩
    let state := states i
    if isTerminalState state then
      ([req], some (if state = "SUCCEEDED" then .succeeded else .failedState state))
    else if (i : Int) * poll_sec > timeout_sec then
      ([req], some (.timeout timeout_sec))
    else
      let rest := poll_until_done inv_name states timeout_sec poll_sec fuel (i + 1)
      (req :: rest.1, rest.2)

/-- The oracle for one run of the ENV-aware runner: whether ambient
credentials exist, the five HTTP responses the service returns (workflow
config GET, release config GET, compilation-result POST, release-config
PATCH, invocation POST) and the invocation state stream for polling. -/
structure Oracle where
  tokenOk : Bool
  wfResp : HttpResp
  relResp : HttpResp
  createResp : HttpResp
  patchResp : HttpResp
  invResp : HttpResp
  states : Nat → String

/-- `create_workflow_invocation(token, project, location, repo, wf_path)`:
one POST to the repository's `workflowInvocations` collection, requiring a
truthy `name` in the response. -/
def create_workflow_invocation (project location repo wf_path : String)
    (invResp : HttpResp) : List HttpReq × Except RunnerError JValue :=
  let url := DATAFORM_API ++ "/" ++ repo_path project location repo ++ "/workflowInvocations"
  let body : JValue := .obj [("workflowConfig", .str wf_path)]
  let res := http_post url body invResp
  (res.1,
   match res.2 with
   | .error e => .error e
   | .ok resp =>
     let inv_name := resp.get "name"
     if !jTruthy inv_name then
       .error .protocolNoInvName
     else
       .ok (inv_name.getD .null))

/-- `main()` of `run_dataform_workflow_env.py` from step 3 (auth) onward,
with config loading already done (project/location/repo/workflow are the
resolved strings).  Result `some (.ok ())` is `return 0`; `some (.error e)`
is the raised `SystemExit`/exception; `none` means the poll-loop fuel ran
out.  The first component is the full ordered HTTP request trace. -/
def main_env (project location repo workflow : String) (o : Oracle)
    (timeout_sec poll_sec : Int) (fuel : Nat) :
    List HttpReq × Option (Except RunnerError Unit) :=
  if !o.tokenOk then
    ([], some (.error .auth))
  else
    let wf_path := workflow_config_path project location repo workflow
    let got_wf := http_get (DATAFORM_API ++ "/" ++ wf_path) o.wfResp
    match got_wf.2 with
    | .error e => (got_wf.1, some (.error e))
    | .ok wf =>
      let release_cfg_name := wf.get "releaseConfig"
      if !jTruthy release_cfg_name then
        (got_wf.1, some (.error .configNoReleaseConfig))
      else
        let rel_name_val := release_cfg_name.getD .null
        let got_rel := http_get (DATAFORM_API ++ "/" ++ rel_name_val.pyRender) o.relResp
        match got_rel.2 with
        | .error e => (got_wf.1 ++ got_rel.1, some (.error e))
        | .ok rel =>
          let ensured := ensure_compiled project location repo rel_name_val rel
                           o.createResp o.patchResp
          match ensured.2 with
          | .error e => (got_wf.1 ++ got_rel.1 ++ ensured.1, some (.error e))
          | .ok _ =>
            let created := create_workflow_invocation project location repo wf_path o.invResp
            match created.2 with
            | .error e =>
              (got_wf.1 ++ got_rel.1 ++ ensured.1 ++ created.1, some (.error e))
            | .ok inv_name =>
              let polled := poll_until_done inv_name.pyRender o.states
                              timeout_sec poll_sec fuel 0
              (got_wf.1 ++ got_rel.1 ++ ensured.1 ++ created.1 ++ polled.1,
               match polled.2 with
               | none => none
               | some .succeeded => some (.ok ())
               | some (.failedState s) => some (.error (.workflowFailed s))
               | some (.timeout t) => some (.error (.workflowTimeout t)))

/-- One call through the `google-cloud-dataform` SDK client used by the
plain runner `run_dataform_workflow.py`. -/
inductive SdkCall where
  | createWorkflowInvocation (parent : String) (workflowConfig : String)
  | getWorkflowInvocation (name : String)
deriving Repr, DecidableEq

/-- Poll loop of `run_dataform_workflow.py` main (lines 124-147): each
iteration first compares the wall clock against the deadline (strictly,
raising `TimeoutError` — uncaught, exit code 1 — before any fetch of that
iteration), then fetches the invocation; SUCCEEDED returns 0 and
FAILED/CANCELLED returns 2; otherwise sleep `poll_sec` and loop.  Fetches
happen at elapsed `i * poll_sec`. -/
def plain_poll (inv_name : String) (states : Nat → String)
    (timeout_sec poll_sec : Int) :
    Nat → Nat → List SdkCall × Option Nat
  | 0, _ => ([], none)
  | fuel + 1, i =>
    if (i : Int) * poll_sec > timeout_sec then
      ([], some 1)
    else
      let c := SdkCall.getWorkflowInvocation inv_name
      let state := states i
      if state = "SUCCEEDED" then
        ([c], some 0)
      else if state = "FAILED" || state = "CANCELLED" then
        ([c], some 2)
      else
        let rest := plain_poll inv_name states timeout_sec poll_sec fuel (i + 1)
        (c :: rest.1, rest.2)

/-- `main()` of `run_dataform_workflow.py` after config loading: builds the
repository and workflow-config names, immediately creates a
WorkflowInvocation (no ReleaseConfig fetch, no compilation check, no
patch), then polls.  `created_name` is the name the service assigns to the
invocation; the returned `Option Nat` is the process exit code. -/
def main_plain (project region repo workflow : String)
    (created_name : String) (states : Nat → String)
    (timeout_sec poll_sec : Int) (fuel : Nat) : List SdkCall × Option Nat :=
  let repository := "projects/" ++ project ++ "/locations/" ++ region
                      ++ "/repositories/" ++ repo
  let workflow_config := repository ++ "/workflowConfigs/" ++ workflow
  let createCall := SdkCall.createWorkflowInvocation repository workflow_config
  let polled := plain_poll created_name states timeout_sec poll_sec fuel 0
  (createCall :: polled.1, polled.2)

/-- Claim C1: for every ReleaseConfig whose `releaseCompilationResult`
reference is non-empty (truthy), the compile-bootstrap performs zero write
calls — its request trace is empty, so there is neither a CompilationResult
creation nor a ReleaseConfig patch — and the ReleaseConfig value used for
the rest of the run is the fetched input unchanged. -/
theorem C1_ensure_compiled_noop (project location repo : String)
    (release_cfg_name rel : JValue) (createResp patchResp : HttpResp)
    (h : jTruthy (rel.get "releaseCompilationResult") = true) :
    ensure_compiled project location repo release_cfg_name rel createResp patchResp
      = ([], .ok rel) := by
  simp [ensure_compiled, h]

/-- Witness for C1 at a concrete already-compiled ReleaseConfig. -/
theorem C1_ensure_compiled_noop_witness :
    jTruthy ((JValue.obj
      [("releaseCompilationResult",
        .str "projects/p/locations/l/repositories/r/compilationResults/c")]).get
        "releaseCompilationResult") = true ∧
    ensure_compiled "p" "l" "r" (.str "rc")
      (JValue.obj
        [("releaseCompilationResult",
          .str "projects/p/locations/l/repositories/r/compilationResults/c")])
      ⟨200, "", .obj []⟩ ⟨200, "", .obj []⟩
      = ([], .ok (JValue.obj
          [("releaseCompilationResult",
            .str "projects/p/locations/l/repositories/r/compilationResults/c")])) :=
  ⟨rfl, C1_ensure_compiled_noop "p" "l" "r" (.str "rc") _ _ _ rfl⟩

/-- Claim C8: each of the REST transport wrappers issues exactly one
request (no retry), returns the decoded JSON when the status is strictly
below 300, and otherwise fails with an error carrying the status, the
path, the body sent (none for GET, which sends no body) and the body
received. -/
theorem C8_transport_contract (url : String) (body : JValue) (resp : HttpResp) :
    (http_get url resp).1.length = 1 ∧
    (http_post url body resp).1.length = 1 ∧
    (http_patch url body resp).1.length = 1 ∧
    (resp.status < 300 →
      (http_get url resp).2 = .ok resp.json ∧
      (http_post url body resp).2 = .ok resp.json ∧
      (http_patch url body resp).2 = .ok resp.json) ∧
    (300 ≤ resp.status →
      (http_get url resp).2 = .error (.remote resp.status url none resp.text) ∧
      (http_post url body resp).2 = .error (.remote resp.status url (some body) resp.text) ∧
      (http_patch url body resp).2 = .error (.remote resp.status url (some body) resp.text)) := by
  refine ⟨rfl, rfl, rfl, ?_, ?_⟩ <;> intro h <;>
    simp [http_get, http_post, http_patch, Nat.not_le.mpr, h, Nat.not_le_of_lt h]

/-- Witness for C8: one successful GET and one failing POST at concrete
responses, both obtained from the transport contract. -/
theorem C8_transport_contract_witness :
    (http_get "u" ⟨200, "ok", .obj []⟩).2 = .ok (.obj []) ∧
    (http_post "u" (.obj []) ⟨404, "missing", .obj []⟩).2
      = .error (.remote 404 "u" (some (.obj [])) "missing") :=
  ⟨((C8_transport_contract "u" (.obj []) ⟨200, "ok", .obj []⟩).2.2.2.1
      (by norm_num)).1,
   ((C8_transport_contract "u" (.obj []) ⟨404, "missing", .obj []⟩).2.2.2.2
      (by norm_num)).2.1⟩

/-- Claim C6: if the fetched ReleaseConfig lacks a truthy source-version
marker (`gitCommitish`) or a dict-valued compilation-configuration payload
(`codeCompilationConfig`), the compile-bootstrap fails with the
configuration error carrying the offending resource name — the value of
the ReleaseConfig's `name` field — and its request trace is empty, so no
create or patch call was attempted. -/
theorem C6_config_error_before_writes (project location repo : String)
    (release_cfg_name rel : JValue) (createResp patchResp : HttpResp)
    (hcomp : jTruthy (rel.get "releaseCompilationResult") = false)
    (hbad : jTruthy (rel.get "gitCommitish") = false
            ∨ jIsDict (rel.get "codeCompilationConfig") = false) :
    (ensure_compiled project location repo release_cfg_name rel createResp patchResp).1 = []
    ∧ ∃ f, (ensure_compiled project location repo release_cfg_name rel
              createResp patchResp).2
             = .error (.configError (rel.getD "name" (.str "")) f) := by
  cases hgit : jTruthy (rel.get "gitCommitish") with
  | false =>
    refine ⟨?_, "gitCommitish", ?_⟩ <;>
      simp [ensure_compiled, hcomp, create_compilation_result_for_release, hgit]
  | true =>
    rcases hbad with h | h
    · rw [hgit] at h; cases h
    · refine ⟨?_, "codeCompilationConfig", ?_⟩ <;>
        simp [ensure_compiled, hcomp, create_compilation_result_for_release, hgit, h]

/-- Witness for C6 at a ReleaseConfig with a name but no `gitCommitish`. -/
theorem C6_config_error_before_writes_witness :
    jTruthy ((JValue.obj [("name", .str "projects/p/releaseConfigs/rc")]).get
      "releaseCompilationResult") = false ∧
    (jTruthy ((JValue.obj [("name", .str "projects/p/releaseConfigs/rc")]).get
      "gitCommitish") = false ∨
     jIsDict ((JValue.obj [("name", .str "projects/p/releaseConfigs/rc")]).get
      "codeCompilationConfig") = false) ∧
    ((ensure_compiled "p" "l" "r" (.str "rc")
        (JValue.obj [("name", .str "projects/p/releaseConfigs/rc")])
        ⟨200, "", .obj []⟩ ⟨200, "", .obj []⟩).1 = []
     ∧ ∃ f, (ensure_compiled "p" "l" "r" (.str "rc")
          (JValue.obj [("name", .str "projects/p/releaseConfigs/rc")])
          ⟨200, "", .obj []⟩ ⟨200, "", .obj []⟩).2
         = .error (.configError ((JValue.obj
             [("name", .str "projects/p/releaseConfigs/rc")]).getD "name" (.str ""))
             f)) :=
  ⟨rfl, .inl rfl,
   C6_config_error_before_writes "p" "l" "r" (.str "rc") _ _ _ rfl (.inl rfl)⟩

/-- Claim C7: if the CompilationResult creation succeeds at the HTTP level
(status < 300) but the response body carries no truthy assigned `name`,
the compile-bootstrap fails with the protocol error and its request trace
is exactly the single create POST — no patch of the ReleaseConfig is ever
issued. -/
theorem C7_protocol_error_no_patch (project location repo : String)
    (release_cfg_name rel : JValue) (createResp patchResp : HttpResp)
    (hcomp : jTruthy (rel.get "releaseCompilationResult") = false)
    (hgit : jTruthy (rel.get "gitCommitish") = true)
    (hcfg : jIsDict (rel.get "codeCompilationConfig") = true)
    (hstatus : createResp.status < 300)
    (hname : jTruthy (createResp.json.get "name") = false) :
    ensure_compiled project location repo release_cfg_name rel createResp patchResp
      = ([⟨.post,
           DATAFORM_API ++ "/" ++ repo_path project location repo ++ "/compilationResults",
           some (.obj [("gitCommitish", (rel.get "gitCommitish").getD .null),
                       ("codeCompilationConfig",
                        (rel.get "codeCompilationConfig").getD .null)])⟩],
         .error .protocolNoCompName) := by
  simp [ensure_compiled, hcomp, create_compilation_result_for_release, hgit, hcfg,
        http_post, Nat.not_le_of_lt hstatus, hname]

/-- Witness for C7: a creation response with HTTP 200 and an empty body. -/
theorem C7_protocol_error_no_patch_witness :
    jTruthy ((JValue.obj [("gitCommitish", .str "main"),
        ("codeCompilationConfig", .obj [])]).get "releaseCompilationResult") = false ∧
    jTruthy ((JValue.obj [("gitCommitish", .str "main"),
        ("codeCompilationConfig", .obj [])]).get "gitCommitish") = true ∧
    jIsDict ((JValue.obj [("gitCommitish", .str "main"),
        ("codeCompilationConfig", .obj [])]).get "codeCompilationConfig") = true ∧
    (200 : Nat) < 300 ∧
    jTruthy ((JValue.obj []).get "name") = false ∧
    ensure_compiled "p" "l" "r" (.str "rc")
      (JValue.obj [("gitCommitish", .str "main"), ("codeCompilationConfig", .obj [])])
      ⟨200, "", .obj []⟩ ⟨200, "", .obj []⟩
      = ([⟨.post,
           DATAFORM_API ++ "/" ++ repo_path "p" "l" "r" ++ "/compilationResults",
           some (.obj [("gitCommitish",
              ((JValue.obj [("gitCommitish", .str "main"),
                ("codeCompilationConfig", .obj [])]).get "gitCommitish").getD .null),
             ("codeCompilationConfig",
              ((JValue.obj [("gitCommitish", .str "main"),
                ("codeCompilationConfig", .obj [])]).get "codeCompilationConfig").getD .null)])⟩],
         .error .protocolNoCompName) :=
  ⟨rfl, rfl, rfl, by norm_num, rfl,
   C7_protocol_error_no_patch "p" "l" "r" (.str "rc") _ _ _ rfl rfl rfl (by norm_num) rfl⟩

/-- Claim C2: for a ReleaseConfig with an empty compilation reference, a
truthy `gitCommitish` and a dict-valued `codeCompilationConfig`, when the
service answers both writes successfully and assigns a truthy name to the
created CompilationResult, the compile-bootstrap's request trace is exactly
one create POST followed by one PATCH whose URL restricts the update mask
to the single field `releaseCompilationResult`, and the
`releaseCompilationResult` value written by the patch body equals the
`name` the service assigned to the created CompilationResult. -/
theorem C2_ensure_compiled_create_patch (project location repo : String)
    (release_cfg_name rel : JValue) (createResp patchResp : HttpResp)
    (hcomp : jTruthy (rel.get "releaseCompilationResult") = false)
    (hgit : jTruthy (rel.get "gitCommitish") = true)
    (hcfg : jIsDict (rel.get "codeCompilationConfig") = true)
    (hcstatus : createResp.status < 300)
    (hname : jTruthy (createResp.json.get "name") = true)
    (hpstatus : patchResp.status < 300) :
    ensure_compiled project location repo release_cfg_name rel createResp patchResp
      = ([⟨.post,
           DATAFORM_API ++ "/" ++ repo_path project location repo ++ "/compilationResults",
           some (.obj [("gitCommitish", (rel.get "gitCommitish").getD .null),
                       ("codeCompilationConfig",
                        (rel.get "codeCompilationConfig").getD .null)])⟩,
          ⟨.patch,
           DATAFORM_API ++ "/" ++ release_cfg_name.pyRender
             ++ "?updateMask=releaseCompilationResult",
           some (.obj [("name", release_cfg_name),
                       ("releaseCompilationResult",
                        (createResp.json.get "name").getD .null)])⟩],
         .ok rel) := by
  simp [ensure_compiled, hcomp, create_compilation_result_for_release,
        patch_release_config_set_compilation, hgit, hcfg, http_post, http_patch,
        Nat.not_le_of_lt hcstatus, Nat.not_le_of_lt hpstatus, hname]

/-- Witness for C2 at a fully concrete ReleaseConfig and service responses. -/
theorem C2_ensure_compiled_create_patch_witness :
    jTruthy ((JValue.obj [("name", .str "projects/p/releaseConfigs/rc"),
        ("gitCommitish", .str "main"),
        ("codeCompilationConfig", .obj [("defaultDatabase", .str "p")])]).get
        "releaseCompilationResult") = false ∧
    jTruthy ((JValue.obj [("name", .str "projects/p/releaseConfigs/rc"),
        ("gitCommitish", .str "main"),
        ("codeCompilationConfig", .obj [("defaultDatabase", .str "p")])]).get
        "gitCommitish") = true ∧
    jIsDict ((JValue.obj [("name", .str "projects/p/releaseConfigs/rc"),
        ("gitCommitish", .str "main"),
        ("codeCompilationConfig", .obj [("defaultDatabase", .str "p")])]).get
        "codeCompilationConfig") = true ∧
    (200 : Nat) < 300 ∧
    jTruthy ((JValue.obj [("name",
        .str "projects/p/repositories/r/compilationResults/abc")]).get "name") = true ∧
    ensure_compiled "p" "l" "r" (.str "projects/p/releaseConfigs/rc")
      (JValue.obj [("name", .str "projects/p/releaseConfigs/rc"),
        ("gitCommitish", .str "main"),
        ("codeCompilationConfig", .obj [("defaultDatabase", .str "p")])])
      ⟨200, "", .obj [("name", .str "projects/p/repositories/r/compilationResults/abc")]⟩
      ⟨200, "", .obj []⟩
      = ([⟨.post,
           DATAFORM_API ++ "/" ++ repo_path "p" "l" "r" ++ "/compilationResults",
           some (.obj [("gitCommitish", .str "main"),
                       ("codeCompilationConfig", .obj [("defaultDatabase", .str "p")])])⟩,
          ⟨.patch,
           DATAFORM_API ++ "/" ++ (JValue.str "projects/p/releaseConfigs/rc").pyRender
             ++ "?updateMask=releaseCompilationResult",
           some (.obj [("name", .str "projects/p/releaseConfigs/rc"),
                       ("releaseCompilationResult",
                        .str "projects/p/repositories/r/compilationResults/abc")])⟩],
         .ok (JValue.obj [("name", .str "projects/p/releaseConfigs/rc"),
           ("gitCommitish", .str "main"),
           ("codeCompilationConfig", .obj [("defaultDatabase", .str "p")])])) :=
  ⟨rfl, rfl, rfl, by norm_num, rfl,
   C2_ensure_compiled_create_patch "p" "l" "r" (.str "projects/p/releaseConfigs/rc")
     _ _ _ rfl rfl rfl (by norm_num) rfl (by norm_num)⟩

/-- Every request the poll loop issues is the GET of the invocation by
name: the loop never requests any other resource (in particular it never
queries the invocation's action list). -/
theorem poll_trace_all_get (inv_name : String) (states : Nat → String)
    (timeout_sec poll_sec : Int) :
    ∀ fuel i req,
      req ∈ (poll_until_done inv_name states timeout_sec poll_sec fuel i).1 →
      req = ⟨.get, DATAFORM_API ++ "/" ++ inv_name, none⟩ := by
  intro fuel
  induction fuel with
  | zero => intro i req h; simp [poll_until_done] at h
  | succ n ih =>
    intro i req h
    simp only [poll_until_done] at h
    split at h
    · simp at h; exact h
    · split at h
      · simp at h; exact h
      · simp at h
        rcases h with h | h
        · exact h
        · exact ih (i + 1) req h

/-- Characterization of a timeout outcome of the poll loop, for an
arbitrary starting iteration `i`: the reported value is the configured
timeout, at least one fetch happened, the last fetch (at elapsed
`(i + n - 1) * poll_sec` where `n` is the number of fetches) observed a
non-terminal state with elapsed time strictly greater than the timeout,
and every earlier fetch observed a non-terminal state with elapsed time
still within the timeout. -/
theorem poll_timeout_char (inv_name : String) (states : Nat → String)
    (timeout_sec poll_sec : Int) :
    ∀ fuel i tr t,
      poll_until_done inv_name states timeout_sec poll_sec fuel i
        = (tr, some (.timeout t)) →
      t = timeout_sec ∧ 1 ≤ tr.length ∧
      isTerminalState (states (i + tr.length - 1)) = false ∧
      ((i + tr.length - 1 : Nat) : Int) * poll_sec > timeout_sec ∧
      ∀ j : Nat, j < tr.length - 1 →
        isTerminalState (states (i + j)) = false ∧
        ((i + j : Nat) : Int) * poll_sec ≤ timeout_sec := by
  intro fuel
  induction fuel with
  | zero => intro i tr t h; simp [poll_until_done] at h
  | succ n ih =>
    intro i tr t h
    simp only [poll_until_done] at h
    split at h
    · split at h <;> simp [Prod.mk.injEq] at h
    · rename_i hterm
      split at h
      · rename_i hgt
        rw [Prod.mk.injEq] at h
        obtain ⟨htr, hres⟩ := h
        simp only [Option.some.injEq, PollResult.timeout.injEq] at hres
        subst hres
        subst htr
        refine ⟨rfl, by simp, ?_, ?_, ?_⟩
        · simpa using Bool.not_eq_true _ ▸ (by simpa using hterm)
        · simpa using hgt
        · intro j hj; simp at hj
      · rename_i hle
        rw [Prod.mk.injEq] at h
        obtain ⟨htr, hres⟩ := h
        have hcall : poll_until_done inv_name states timeout_sec poll_sec n (i + 1)
            = ((poll_until_done inv_name states timeout_sec poll_sec n (i + 1)).1,
               some (.timeout t)) := by
          rw [← hres]
        obtain ⟨ht, hlen, hlast, hgt, hall⟩ := ih (i + 1) _ t hcall
        subst htr
        refine ⟨ht, by simp, ?_, ?_, ?_⟩
        · have hidx : i + (((poll_until_done inv_name states timeout_sec poll_sec n
              (i + 1)).1).length + 1) - 1
              = i + 1 + ((poll_until_done inv_name states timeout_sec poll_sec n
              (i + 1)).1).length - 1 := by omega
          simpa [hidx] using hlast
        · have hidx : i + (((poll_until_done inv_name states timeout_sec poll_sec n
              (i + 1)).1).length + 1) - 1
              = i + 1 + ((poll_until_done inv_name states timeout_sec poll_sec n
              (i + 1)).1).length - 1 := by omega
          simpa [hidx] using hgt
        · intro j hj
          simp at hj
          cases j with
          | zero =>
            refine ⟨by simpa using hterm, ?_⟩
            simpa using not_lt.mp hle
          | succ j' =>
            have hj' : j' < ((poll_until_done inv_name states timeout_sec poll_sec n
                (i + 1)).1).length - 1 := by omega
            have := hall j' hj'
            have hidx : i + 1 + j' = i + (j' + 1) := by omega
            rw [hidx] at this
            exact this

/-- When the poll loop ends with `die(code=3)`, the state it carries is the
observed terminal state and is FAILED or CANCELLED. -/
theorem poll_failed_char (inv_name : String) (states : Nat → String)
    (timeout_sec poll_sec : Int) :
    ∀ fuel i tr s,
      poll_until_done inv_name states timeout_sec poll_sec fuel i
        = (tr, some (.failedState s)) →
      s = "FAILED" ∨ s = "CANCELLED" := by
  intro fuel
  induction fuel with
  | zero => intro i tr s h; simp [poll_until_done] at h
  | succ n ih =>
    intro i tr s h
    simp only [poll_until_done] at h
    split at h
    · rename_i hterm
      split at h
      · simp [Prod.mk.injEq] at h
      · rename_i hsucc
        rw [Prod.mk.injEq] at h
        obtain ⟨htr, hres⟩ := h
        simp only [Option.some.injEq, PollResult.failedState.injEq] at hres
        subst hres
        simp [isTerminalState] at hterm
        rcases hterm with (h | h) | h
        · exact absurd h hsucc
        · exact .inl h
        · exact .inr h
    · split at h
      · simp [Prod.mk.injEq] at h
      · rw [Prod.mk.injEq] at h
        obtain ⟨htr, hres⟩ := h
        exact ih (i + 1) _ s (by rw [← hres])

/-- Claim C3 is false on the code: when the invocation is observed FAILED,
the whole request trace of the driver is the single GET of the invocation —
no query of the invocation's action list is ever issued — and the failure
carries only the terminal state string, with no per-action target triples
or failure reasons (whether or not the remote invocation has failed
actions, which the driver never asks about). -/
theorem C3_counterexample :
    poll_until_done "projects/p/locations/l/repositories/r/workflowInvocations/i"
      (fun _ => "FAILED") 30 10 5 0
      = ([⟨.get,
           DATAFORM_API ++ "/" ++ "projects/p/locations/l/repositories/r/workflowInvocations/i",
           none⟩],
         some (.failedState "FAILED")) := rfl

/-- Claim C3 (amended): when the invocation reaches a terminal state FAILED
or CANCELLED, the driver fails immediately with `die(code=3)` carrying only
that state; it performs no query of the invocation's action list — every
request it ever issued is the GET of the invocation by name — and collects
no per-action failure detail. -/
theorem C3_failed_terminal_no_action_query (inv_name : String)
    (states : Nat → String) (timeout_sec poll_sec : Int) (fuel i : Nat)
    (tr : List HttpReq) (s : String)
    (h : poll_until_done inv_name states timeout_sec poll_sec fuel i
          = (tr, some (.failedState s))) :
    (s = "FAILED" ∨ s = "CANCELLED") ∧
    ∀ req ∈ tr, req = ⟨.get, DATAFORM_API ++ "/" ++ inv_name, none⟩ := by
  refine ⟨poll_failed_char inv_name states timeout_sec poll_sec fuel i tr s h, ?_⟩
  intro req hreq
  have h1 := poll_trace_all_get inv_name states timeout_sec poll_sec fuel i req
  rw [h] at h1
  exact h1 hreq

/-- Witness for the amended C3 at a concrete CANCELLED run. -/
theorem C3_failed_terminal_no_action_query_witness :
    (("CANCELLED" : String) = "FAILED" ∨ ("CANCELLED" : String) = "CANCELLED") ∧
    ∀ req ∈ ([⟨.get, DATAFORM_API ++ "/" ++ "inv", none⟩] : List HttpReq),
      req = ⟨.get, DATAFORM_API ++ "/" ++ "inv", none⟩ :=
  C3_failed_terminal_no_action_query "inv" (fun _ => "CANCELLED") 30 10 5 0
    [⟨.get, DATAFORM_API ++ "/" ++ "inv", none⟩] "CANCELLED" rfl

/-- Claim C4 is false on the code: with timeout 30, poll interval 10 and
the invocation RUNNING at t = 0, 10, 20, 30, the driver does not stop at
the t = 30 boundary (elapsed = timeout): the elapsed-time check is strict
and runs only after the fetch, so a 5th fetch happens at t = 40 and decides
the outcome — here it observes SUCCEEDED and the run succeeds instead of
timing out. -/
theorem C4_counterexample :
    poll_until_done "inv" (fun i => if i < 4 then "RUNNING" else "SUCCEEDED") 30 10 10 0
      = (List.replicate 5 ⟨.get, DATAFORM_API ++ "/" ++ "inv", none⟩,
         some .succeeded) := rfl

/-- Claim C4 (amended): the driver sleeps exactly `poll_interval` between
consecutive fetches (fetch `j` happens at elapsed `j * poll_interval`), and
it reports WorkflowTimeout exactly at the first fetch that observes a
non-terminal state with elapsed time strictly greater than the timeout;
every earlier fetch observed a non-terminal state with elapsed time at most
the timeout.  In particular a fetch happening exactly at the timeout
boundary does not time out, so one more fetch past the boundary occurs and
can change the outcome. -/
theorem C4_timeout_strict_boundary (inv_name : String) (states : Nat → String)
    (timeout_sec poll_sec : Int) (fuel : Nat) (tr : List HttpReq) (t : Int)
    (h : poll_until_done inv_name states timeout_sec poll_sec fuel 0
          = (tr, some (.timeout t))) :
    t = timeout_sec ∧ 1 ≤ tr.length ∧
    isTerminalState (states (tr.length - 1)) = false ∧
    ((tr.length - 1 : Nat) : Int) * poll_sec > timeout_sec ∧
    ∀ j : Nat, j < tr.length - 1 →
      isTerminalState (states j) = false ∧ (j : Int) * poll_sec ≤ timeout_sec := by
  have h1 := poll_timeout_char inv_name states timeout_sec poll_sec fuel 0 tr t h
  simpa using h1

/-- Witness for the amended C4: RUNNING forever with timeout 30 and poll 10
times out at the 5th fetch (t = 40). -/
theorem C4_timeout_strict_boundary_witness :
    (30 : Int) = 30 ∧
    1 ≤ (List.replicate 5 (⟨.get, DATAFORM_API ++ "/" ++ "inv", none⟩ : HttpReq)).length ∧
    isTerminalState "RUNNING" = false ∧
    ((4 : Nat) : Int) * 10 > 30 ∧
    (∀ j : Nat, j < 4 →
      isTerminalState "RUNNING" = false ∧ (j : Int) * 10 ≤ 30) :=
  C4_timeout_strict_boundary "inv" (fun _ => "RUNNING") 30 10 10
    (List.replicate 5 ⟨.get, DATAFORM_API ++ "/" ++ "inv", none⟩) 30 rfl

/-- Claim C10: the poll loop fetches before it checks anything, so —
whatever the timeout, zero and negative included — at least one fetch of
the invocation state happens before a timeout can be reported, a timeout is
only reported from an iteration that observed a non-terminal state, and a
terminal state observed at the very first fetch yields the success or
failed outcome after exactly that one fetch, never WorkflowTimeout. -/
theorem C10_first_fetch_before_timeout (inv_name : String)
    (states : Nat → String) (timeout_sec poll_sec : Int) (fuel : Nat) :
    (∀ tr t, poll_until_done inv_name states timeout_sec poll_sec fuel 0
        = (tr, some (.timeout t)) →
      1 ≤ tr.length ∧ isTerminalState (states (tr.length - 1)) = false) ∧
    (isTerminalState (states 0) = true →
      poll_until_done inv_name states timeout_sec poll_sec (fuel + 1) 0
        = ([⟨.get, DATAFORM_API ++ "/" ++ inv_name, none⟩],
           some (if states 0 = "SUCCEEDED" then .succeeded
                 else .failedState (states 0)))) := by
  constructor
  · intro tr t h
    have h1 := poll_timeout_char inv_name states timeout_sec poll_sec fuel 0 tr t h
    exact ⟨h1.2.1, by simpa using h1.2.2.1⟩
  · intro h
    simp [poll_until_done, h]

/-- Witness for C10: a CANCELLED first observation with a negative timeout
still yields the failed outcome after one fetch, and a RUNNING observation
with a negative timeout times out only after that first fetch. -/
theorem C10_first_fetch_before_timeout_witness :
    (1 ≤ ([⟨.get, DATAFORM_API ++ "/" ++ "inv", none⟩] : List HttpReq).length ∧
     isTerminalState "RUNNING" = false) ∧
    poll_until_done "inv" (fun _ => "CANCELLED") (-5) 10 1 0
      = ([⟨.get, DATAFORM_API ++ "/" ++ "inv", none⟩],
         some (if ("CANCELLED" : String) = "SUCCEEDED" then .succeeded
               else .failedState "CANCELLED")) :=
  ⟨(C10_first_fetch_before_timeout "inv" (fun _ => "RUNNING") (-5) 10 1).1
      [⟨.get, DATAFORM_API ++ "/" ++ "inv", none⟩] (-5) rfl,
   (C10_first_fetch_before_timeout "inv" (fun _ => "CANCELLED") (-5) 10 0).2 rfl⟩

/-- Claim C9 is false on the code: two runs ending in different failure
categories — a ConfigError (ReleaseConfig without `gitCommitish`) and a
ProtocolError (CompilationResult created with no `name` in the response) —
both exit with the same process code 1, because `die` is called with its
default code at both sites. -/
theorem C9_counterexample :
    (main_env "p" "l" "r" "w"
      ⟨true,
       ⟨200, "", .obj [("releaseConfig",
          .str "projects/p/locations/l/repositories/r/releaseConfigs/rc")]⟩,
       ⟨200, "", .obj [("name",
          .str "projects/p/locations/l/repositories/r/releaseConfigs/rc")]⟩,
       ⟨200, "", .obj []⟩, ⟨200, "", .obj []⟩, ⟨200, "", .obj []⟩,
       fun _ => "RUNNING"⟩ 30 10 5).2
      = some (.error (.configError
          (.str "projects/p/locations/l/repositories/r/releaseConfigs/rc")
          "gitCommitish")) ∧
    (main_env "p" "l" "r" "w"
      ⟨true,
       ⟨200, "", .obj [("releaseConfig",
          .str "projects/p/locations/l/repositories/r/releaseConfigs/rc")]⟩,
       ⟨200, "", .obj [("name",
          .str "projects/p/locations/l/repositories/r/releaseConfigs/rc"),
         ("gitCommitish", .str "main"),
         ("codeCompilationConfig", .obj [("defaultDatabase", .str "p")])]⟩,
       ⟨200, "", .obj []⟩, ⟨200, "", .obj []⟩, ⟨200, "", .obj []⟩,
       fun _ => "RUNNING"⟩ 30 10 5).2
      = some (.error .protocolNoCompName) ∧
    (RunnerError.configError
       (.str "projects/p/locations/l/repositories/r/releaseConfigs/rc")
       "gitCommitish" ≠ .protocolNoCompName) ∧
    exitCodeOf (.configError
       (.str "projects/p/locations/l/repositories/r/releaseConfigs/rc")
       "gitCommitish")
      = exitCodeOf .protocolNoCompName :=
  ⟨rfl, rfl, fun h => RunnerError.noConfusion h, rfl⟩

/-- Claim C9 (amended): WorkflowFailed maps to exit code 3, WorkflowTimeout
to exit code 4, and those codes identify their categories; every failure
exits non-zero; but AuthError, RemoteError, ProtocolError and ConfigError
all share exit code 1 and are not distinguishable by exit code. -/
theorem C9_exit_code_partition :
    (∀ e : RunnerError, exitCodeOf e ≠ 0) ∧
    (∀ s, exitCodeOf (.workflowFailed s) = 3) ∧
    (∀ t, exitCodeOf (.workflowTimeout t) = 4) ∧
    (∀ e : RunnerError, exitCodeOf e = 3 → ∃ s, e = .workflowFailed s) ∧
    (∀ e : RunnerError, exitCodeOf e = 4 → ∃ t, e = .workflowTimeout t) ∧
    exitCodeOf .auth = 1 ∧
    (∀ st u b r, exitCodeOf (.remote st u b r) = 1) ∧
    exitCodeOf .configNoReleaseConfig = 1 ∧
    (∀ n f, exitCodeOf (.configError n f) = 1) ∧
    exitCodeOf .protocolNoCompName = 1 ∧
    exitCodeOf .protocolNoInvName = 1 := by
  refine ⟨?_, fun s => rfl, fun t => rfl, ?_, ?_, rfl, fun st u b r => rfl, rfl,
          fun n f => rfl, rfl, rfl⟩
  · intro e; cases e <;> simp [exitCodeOf]
  · intro e h; cases e <;> simp_all [exitCodeOf]
  · intro e h; cases e <;> simp_all [exitCodeOf]

/-- Witness for the amended C9: exit code 3 identifies WorkflowFailed. -/
theorem C9_exit_code_partition_witness :
    ∃ s, RunnerError.workflowFailed "FAILED" = .workflowFailed s :=
  C9_exit_code_partition.2.2.2.1 (.workflowFailed "FAILED") rfl

/-- Appending different suffixes to the same string yields different
strings (used to tell the compilation-result and invocation collection
URLs apart). -/
theorem string_append_left_ne (s : String) {a b : String} (h : a ≠ b) :
    s ++ a ≠ s ++ b := by
  intro hc
  apply h
  have hd := congrArg String.data hc
  simp only [String.data_append] at hd
  exact String.ext (List.append_cancel_left hd)


/-- Trace/result shape of the compile-bootstrap: on success the trace is
empty (reference already present) or exactly the create POST followed by
the patch; on failure it is empty (validation), the lone create POST, or
the create POST plus the failed patch. -/
theorem ensure_compiled_shape (project location repo : String)
    (rcn rel : JValue) (cR pR : HttpResp) :
    ((ensure_compiled project location repo rcn rel cR pR).2 = .ok rel ∧
      ((jTruthy (rel.get "releaseCompilationResult") = true ∧
        (ensure_compiled project location repo rcn rel cR pR).1 = []) ∨
       (∃ cb pu pb, (ensure_compiled project location repo rcn rel cR pR).1
          = [⟨.post, DATAFORM_API ++ "/" ++ repo_path project location repo
                ++ "/compilationResults", cb⟩,
             ⟨.patch, pu, pb⟩]))) ∨
    (∃ e, (ensure_compiled project location repo rcn rel cR pR).2 = .error e ∧
      ((ensure_compiled project location repo rcn rel cR pR).1 = [] ∨
       (∃ cb, (ensure_compiled project location repo rcn rel cR pR).1
          = [⟨.post, DATAFORM_API ++ "/" ++ repo_path project location repo
                ++ "/compilationResults", cb⟩]) ∨
       (∃ cb pu pb, (ensure_compiled project location repo rcn rel cR pR).1
          = [⟨.post, DATAFORM_API ++ "/" ++ repo_path project location repo
                ++ "/compilationResults", cb⟩,
             ⟨.patch, pu, pb⟩]))) := by
  by_cases hcomp : jTruthy (rel.get "releaseCompilationResult") = true
  · have h1 : ensure_compiled project location repo rcn rel cR pR = ([], .ok rel) := by
      simp [ensure_compiled, hcomp]
    rw [h1]
    exact .inl ⟨rfl, .inl ⟨hcomp, rfl⟩⟩
  · rw [Bool.not_eq_true] at hcomp
    by_cases hgit : jTruthy (rel.get "gitCommitish") = true
    · by_cases hcfg : jIsDict (rel.get "codeCompilationConfig") = true
      · by_cases hcs : 300 ≤ cR.status
        · have h1 : ensure_compiled project location repo rcn rel cR pR
              = ([⟨.post, DATAFORM_API ++ "/" ++ repo_path project location repo
                    ++ "/compilationResults",
                   some (.obj [("gitCommitish", (rel.get "gitCommitish").getD .null),
                               ("codeCompilationConfig",
                                (rel.get "codeCompilationConfig").getD .null)])⟩],
                 .error (.remote cR.status
                   (DATAFORM_API ++ "/" ++ repo_path project location repo
                     ++ "/compilationResults")
                   (some (.obj [("gitCommitish", (rel.get "gitCommitish").getD .null),
                                ("codeCompilationConfig",
                                 (rel.get "codeCompilationConfig").getD .null)]))
                   cR.text)) := by
            simp [ensure_compiled, hcomp, create_compilation_result_for_release,
                  hgit, hcfg, http_post, hcs]
          rw [h1]
          exact .inr ⟨_, rfl, .inr (.inl ⟨_, rfl⟩)⟩
        · have hcs' : cR.status < 300 := Nat.lt_of_not_le hcs
          by_cases hname : jTruthy (cR.json.get "name") = true
          · by_cases hps : 300 ≤ pR.status
            · have h1 : ensure_compiled project location repo rcn rel cR pR
                  = ([⟨.post, DATAFORM_API ++ "/" ++ repo_path project location repo
                        ++ "/compilationResults",
                       some (.obj [("gitCommitish", (rel.get "gitCommitish").getD .null),
                                   ("codeCompilationConfig",
                                    (rel.get "codeCompilationConfig").getD .null)])⟩,
                      ⟨.patch, DATAFORM_API ++ "/" ++ rcn.pyRender
                          ++ "?updateMask=releaseCompilationResult",
                       some (.obj [("name", rcn),
                                   ("releaseCompilationResult",
                                    (cR.json.get "name").getD .null)])⟩],
                     .error (.remote pR.status
                       (DATAFORM_API ++ "/" ++ rcn.pyRender
                          ++ "?updateMask=releaseCompilationResult")
                       (some (.obj [("name", rcn),
                                    ("releaseCompilationResult",
                                     (cR.json.get "name").getD .null)]))
                       pR.text)) := by
                simp [ensure_compiled, hcomp, create_compilation_result_for_release,
                      patch_release_config_set_compilation, hgit, hcfg, http_post,
                      http_patch, Nat.not_le_of_lt hcs', hname, hps]
              rw [h1]
              exact .inr ⟨_, rfl, .inr (.inr ⟨_, _, _, rfl⟩)⟩
            · have hps' : pR.status < 300 := Nat.lt_of_not_le hps
              have h1 : ensure_compiled project location repo rcn rel cR pR
                  = ([⟨.post, DATAFORM_API ++ "/" ++ repo_path project location repo
                        ++ "/compilationResults",
                       some (.obj [("gitCommitish", (rel.get "gitCommitish").getD .null),
                                   ("codeCompilationConfig",
                                    (rel.get "codeCompilationConfig").getD .null)])⟩,
                      ⟨.patch, DATAFORM_API ++ "/" ++ rcn.pyRender
                          ++ "?updateMask=releaseCompilationResult",
                       some (.obj [("name", rcn),
                                   ("releaseCompilationResult",
                                    (cR.json.get "name").getD .null)])⟩],
                     .ok rel) := by
                simp [ensure_compiled, hcomp, create_compilation_result_for_release,
                      patch_release_config_set_compilation, hgit, hcfg, http_post,
                      http_patch, Nat.not_le_of_lt hcs', hname, Nat.not_le_of_lt hps']
              rw [h1]
              exact .inl ⟨rfl, .inr ⟨_, _, _, rfl⟩⟩
          · rw [Bool.not_eq_true] at hname
            have h1 : ensure_compiled project location repo rcn rel cR pR
                = ([⟨.post, DATAFORM_API ++ "/" ++ repo_path project location repo
                      ++ "/compilationResults",
                     some (.obj [("gitCommitish", (rel.get "gitCommitish").getD .null),
                                 ("codeCompilationConfig",
                                  (rel.get "codeCompilationConfig").getD .null)])⟩],
                   .error .protocolNoCompName) := by
              simp [ensure_compiled, hcomp, create_compilation_result_for_release,
                    hgit, hcfg, http_post, Nat.not_le_of_lt hcs', hname]
            rw [h1]
            exact .inr ⟨_, rfl, .inr (.inl ⟨_, rfl⟩)⟩
      · rw [Bool.not_eq_true] at hcfg
        have h1 : ensure_compiled project location repo rcn rel cR pR
            = ([], .error (.configError (rel.getD "name" (.str ""))
                "codeCompilationConfig")) := by
          simp [ensure_compiled, hcomp, create_compilation_result_for_release,
                hgit, hcfg]
        rw [h1]
        exact .inr ⟨_, rfl, .inl rfl⟩
    · rw [Bool.not_eq_true] at hgit
      have h1 : ensure_compiled project location repo rcn rel cR pR
          = ([], .error (.configError (rel.getD "name" (.str "")) "gitCommitish")) := by
        simp [ensure_compiled, hcomp, create_compilation_result_for_release, hgit]
      rw [h1]
      exact .inr ⟨_, rfl, .inl rfl⟩


/-- Every complete or aborted run of the ENV-aware main has one of seven
request-trace shapes; in the only two shapes that contain the
invocation-creation POST, that POST is preceded either by the two GETs that
observed a truthy `releaseCompilationResult`, or by the compile-bootstrap's
create POST and patch. -/
theorem main_env_trace_shape (project location repo workflow : String)
    (o : Oracle) (timeout_sec poll_sec : Int) (fuel : Nat) :
    (main_env project location repo workflow o timeout_sec poll_sec fuel).1 = [] ∨
    (main_env project location repo workflow o timeout_sec poll_sec fuel).1
      = [⟨.get, DATAFORM_API ++ "/"
            ++ workflow_config_path project location repo workflow, none⟩] ∨
    (∃ ru, (main_env project location repo workflow o timeout_sec poll_sec fuel).1
      = [⟨.get, DATAFORM_API ++ "/"
            ++ workflow_config_path project location repo workflow, none⟩,
         ⟨.get, ru, none⟩]) ∨
    (∃ ru cb, (main_env project location repo workflow o timeout_sec poll_sec fuel).1
      = [⟨.get, DATAFORM_API ++ "/"
            ++ workflow_config_path project location repo workflow, none⟩,
         ⟨.get, ru, none⟩,
         ⟨.post, DATAFORM_API ++ "/" ++ repo_path project location repo
            ++ "/compilationResults", cb⟩]) ∨
    (∃ ru cb pu pb,
      (main_env project location repo workflow o timeout_sec poll_sec fuel).1
      = [⟨.get, DATAFORM_API ++ "/"
            ++ workflow_config_path project location repo workflow, none⟩,
         ⟨.get, ru, none⟩,
         ⟨.post, DATAFORM_API ++ "/" ++ repo_path project location repo
            ++ "/compilationResults", cb⟩,
         ⟨.patch, pu, pb⟩]) ∨
    (∃ ru ib polls, (∀ q ∈ polls, q.method = .get) ∧
      jTruthy (o.relResp.json.get "releaseCompilationResult") = true ∧
      (main_env project location repo workflow o timeout_sec poll_sec fuel).1
      = [⟨.get, DATAFORM_API ++ "/"
            ++ workflow_config_path project location repo workflow, none⟩,
         ⟨.get, ru, none⟩,
         ⟨.post, DATAFORM_API ++ "/" ++ repo_path project location repo
            ++ "/workflowInvocations", ib⟩] ++ polls) ∨
    (∃ ru cb pu pb ib polls, (∀ q ∈ polls, q.method = .get) ∧
      (main_env project location repo workflow o timeout_sec poll_sec fuel).1
      = [⟨.get, DATAFORM_API ++ "/"
            ++ workflow_config_path project location repo workflow, none⟩,
         ⟨.get, ru, none⟩,
         ⟨.post, DATAFORM_API ++ "/" ++ repo_path project location repo
            ++ "/compilationResults", cb⟩,
         ⟨.patch, pu, pb⟩,
         ⟨.post, DATAFORM_API ++ "/" ++ repo_path project location repo
            ++ "/workflowInvocations", ib⟩] ++ polls) := by
  simp only [main_env]
  split
  · exact .inl rfl
  · split
    · simp [http_get]
    · rename_i wf heqwf
      split
      · simp [http_get]
      · split
        · refine .inr (.inr (.inl
            ⟨DATAFORM_API ++ "/" ++ ((wf.get "releaseConfig").getD .null).pyRender, ?_⟩))
          simp [http_get]
        · rename_i rel heqrel
          have hrel_eq : rel = o.relResp.json := by
            by_cases hst : 300 ≤ o.relResp.status
            · simp [http_get, hst] at heqrel
            · simp [http_get, hst] at heqrel
              exact heqrel.symm
          split
          · rename_i e heqens
            rcases ensure_compiled_shape project location repo
                ((wf.get "releaseConfig").getD .null) rel
                o.createResp o.patchResp with ⟨hok, _⟩ | ⟨e', herr, htr⟩
            · rw [heqens] at hok; cases hok
            · rcases htr with htr | ⟨cb, htr⟩ | ⟨cb, pu, pb, htr⟩
              · refine .inr (.inr (.inl
                  ⟨DATAFORM_API ++ "/"
                    ++ ((wf.get "releaseConfig").getD .null).pyRender, ?_⟩))
                simp [http_get, htr]
              · refine .inr (.inr (.inr (.inl
                  ⟨DATAFORM_API ++ "/"
                    ++ ((wf.get "releaseConfig").getD .null).pyRender, cb, ?_⟩)))
                simp [http_get, htr]
              · refine .inr (.inr (.inr (.inr (.inl
                  ⟨DATAFORM_API ++ "/"
                    ++ ((wf.get "releaseConfig").getD .null).pyRender,
                   cb, pu, pb, ?_⟩))))
                simp [http_get, htr]
          · rename_i v heqens
            rcases ensure_compiled_shape project location repo
                ((wf.get "releaseConfig").getD .null) rel
                o.createResp o.patchResp with ⟨hok, htr⟩ | ⟨e', herr, _⟩
            · rcases htr with ⟨htruthy, htr⟩ | ⟨cb, pu, pb, htr⟩
              · split
                · refine .inr (.inr (.inr (.inr (.inr (.inl
                    ⟨DATAFORM_API ++ "/"
                       ++ ((wf.get "releaseConfig").getD .null).pyRender,
                     some (.obj [("workflowConfig",
                       .str (workflow_config_path project location repo workflow))]),
                     [], ?_, ?_, ?_⟩)))))
                  · intro q hq; simp at hq
                  · rw [← hrel_eq]; exact htruthy
                  · simp [http_get, create_workflow_invocation, http_post, htr]
                · rename_i inv heqinv
                  refine .inr (.inr (.inr (.inr (.inr (.inl
                    ⟨DATAFORM_API ++ "/"
                       ++ ((wf.get "releaseConfig").getD .null).pyRender,
                     some (.obj [("workflowConfig",
                       .str (workflow_config_path project location repo workflow))]),
                     (poll_until_done inv.pyRender o.states timeout_sec poll_sec
                       fuel 0).1, ?_, ?_, ?_⟩)))))
                  · exact fun q hq => poll_trace_all_get _ o.states timeout_sec
                      poll_sec fuel 0 q hq ▸ rfl
                  · rw [← hrel_eq]; exact htruthy
                  · simp [http_get, create_workflow_invocation, http_post, htr]
              · split
                · refine .inr (.inr (.inr (.inr (.inr (.inr
                    ⟨DATAFORM_API ++ "/"
                       ++ ((wf.get "releaseConfig").getD .null).pyRender,
                     cb, pu, pb,
                     some (.obj [("workflowConfig",
                       .str (workflow_config_path project location repo workflow))]),
                     [], ?_, ?_⟩)))))
                  · intro q hq; simp at hq
                  · simp [http_get, create_workflow_invocation, http_post, htr]
                · rename_i inv heqinv
                  refine .inr (.inr (.inr (.inr (.inr (.inr
                    ⟨DATAFORM_API ++ "/"
                       ++ ((wf.get "releaseConfig").getD .null).pyRender,
                     cb, pu, pb,
                     some (.obj [("workflowConfig",
                       .str (workflow_config_path project location repo workflow))]),
                     (poll_until_done inv.pyRender o.states timeout_sec poll_sec
                       fuel 0).1, ?_, ?_⟩)))))
                  · exact fun q hq => poll_trace_all_get _ o.states timeout_sec
                      poll_sec fuel 0 q hq ▸ rfl
                  · simp [http_get, create_workflow_invocation, http_post, htr]
            · rw [heqens] at herr; cases herr

/-- Claim C5 is false for the repository as a whole: the plain runner
`run_dataform_workflow.py` creates the WorkflowInvocation as its very first
service call — nothing precedes it in the call trace, so the creation is
not preceded by observing a non-empty `releaseCompilationResult` nor by any
compile-bootstrap (it never fetches the ReleaseConfig at all). -/
theorem C5_counterexample :
    main_plain "p" "loc" "repo" "wf" "invName" (fun _ => "SUCCEEDED") 1800 10 3
      = ([SdkCall.createWorkflowInvocation
            "projects/p/locations/loc/repositories/repo"
            "projects/p/locations/loc/repositories/repo/workflowConfigs/wf",
          SdkCall.getWorkflowInvocation "invName"],
         some 0) := rfl

/-- Claim C5 (amended): in the ENV-aware orchestrator, whenever the request
trace contains the invocation-creation POST, the whole trace has one of two
shapes, and in both the (unique) invocation POST is preceded either by the
two GETs that observed a truthy `releaseCompilationResult` on the fetched
ReleaseConfig, or by the compile-bootstrap's CompilationResult POST and
ReleaseConfig PATCH.  (The plain variant violates this, see the
counterexample.) -/
theorem C5_env_invocation_after_compile (project location repo workflow : String)
    (o : Oracle) (timeout_sec poll_sec : Int) (fuel : Nat)
    (h : ∃ req ∈ (main_env project location repo workflow o timeout_sec poll_sec fuel).1,
          req.method = .post ∧
          req.url = DATAFORM_API ++ "/" ++ repo_path project location repo
            ++ "/workflowInvocations") :
    (jTruthy (o.relResp.json.get "releaseCompilationResult") = true ∧
     ∃ ru ib polls, (∀ q ∈ polls, q.method = .get) ∧
       (main_env project location repo workflow o timeout_sec poll_sec fuel).1
       = [⟨.get, DATAFORM_API ++ "/"
             ++ workflow_config_path project location repo workflow, none⟩,
          ⟨.get, ru, none⟩,
          ⟨.post, DATAFORM_API ++ "/" ++ repo_path project location repo
             ++ "/workflowInvocations", ib⟩] ++ polls) ∨
    (∃ ru cb pu pb ib polls, (∀ q ∈ polls, q.method = .get) ∧
       (main_env project location repo workflow o timeout_sec poll_sec fuel).1
       = [⟨.get, DATAFORM_API ++ "/"
             ++ workflow_config_path project location repo workflow, none⟩,
          ⟨.get, ru, none⟩,
          ⟨.post, DATAFORM_API ++ "/" ++ repo_path project location repo
             ++ "/compilationResults", cb⟩,
          ⟨.patch, pu, pb⟩,
          ⟨.post, DATAFORM_API ++ "/" ++ repo_path project location repo
             ++ "/workflowInvocations", ib⟩] ++ polls) := by
  obtain ⟨req, hmem, hpost, hurl⟩ := h
  rcases main_env_trace_shape project location repo workflow o timeout_sec
      poll_sec fuel with
    hs | hs | ⟨ru, hs⟩ | ⟨ru, cb, hs⟩ | ⟨ru, cb, pu, pb, hs⟩ |
    ⟨ru, ib, polls, hall, htruthy, hs⟩ | ⟨ru, cb, pu, pb, ib, polls, hall, hs⟩
  · rw [hs] at hmem; simp at hmem
  · rw [hs] at hmem; simp at hmem
    rw [hmem] at hpost; simp at hpost
  · rw [hs] at hmem; simp at hmem
    rcases hmem with hmem | hmem <;> rw [hmem] at hpost <;> simp at hpost
  · rw [hs] at hmem; simp at hmem
    rcases hmem with hmem | hmem | hmem
    · rw [hmem] at hpost; simp at hpost
    · rw [hmem] at hpost; simp at hpost
    · rw [hmem] at hurl
      exact absurd hurl (string_append_left_ne _ (by decide))
  · rw [hs] at hmem; simp at hmem
    rcases hmem with hmem | hmem | hmem | hmem
    · rw [hmem] at hpost; simp at hpost
    · rw [hmem] at hpost; simp at hpost
    · rw [hmem] at hurl
      exact absurd hurl (string_append_left_ne _ (by decide))
    · rw [hmem] at hpost; simp at hpost
  · exact .inl ⟨htruthy, ru, ib, polls, hall, hs⟩
  · exact .inr ⟨ru, cb, pu, pb, ib, polls, hall, hs⟩

/-- Witness for the amended C5: a concrete already-compiled run in which
the invocation POST is present and preceded by the two observing GETs. -/
theorem C5_env_invocation_after_compile_witness :
    (jTruthy ((JValue.obj [("releaseCompilationResult",
        .str "projects/p/compilationResults/c")]).get
        "releaseCompilationResult") = true ∧
     ∃ ru ib polls, (∀ q ∈ polls, q.method = .get) ∧
       (main_env "p" "l" "r" "w"
         ⟨true, ⟨200, "", .obj [("releaseConfig", .str "rc")]⟩,
          ⟨200, "", .obj [("releaseCompilationResult",
            .str "projects/p/compilationResults/c")]⟩,
          ⟨200, "", .obj []⟩, ⟨200, "", .obj []⟩,
          ⟨200, "", .obj [("name", .str "inv1")]⟩,
          fun _ => "SUCCEEDED"⟩ 30 10 1).1
       = [⟨.get, DATAFORM_API ++ "/" ++ workflow_config_path "p" "l" "r" "w", none⟩,
          ⟨.get, ru, none⟩,
          ⟨.post, DATAFORM_API ++ "/" ++ repo_path "p" "l" "r"
             ++ "/workflowInvocations", ib⟩] ++ polls) ∨
    (∃ ru cb pu pb ib polls, (∀ q ∈ polls, q.method = .get) ∧
       (main_env "p" "l" "r" "w"
         ⟨true, ⟨200, "", .obj [("releaseConfig", .str "rc")]⟩,
          ⟨200, "", .obj [("releaseCompilationResult",
            .str "projects/p/compilationResults/c")]⟩,
          ⟨200, "", .obj []⟩, ⟨200, "", .obj []⟩,
          ⟨200, "", .obj [("name", .str "inv1")]⟩,
          fun _ => "SUCCEEDED"⟩ 30 10 1).1
       = [⟨.get, DATAFORM_API ++ "/" ++ workflow_config_path "p" "l" "r" "w", none⟩,
          ⟨.get, ru, none⟩,
          ⟨.post, DATAFORM_API ++ "/" ++ repo_path "p" "l" "r"
             ++ "/compilationResults", cb⟩,
          ⟨.patch, pu, pb⟩,
          ⟨.post, DATAFORM_API ++ "/" ++ repo_path "p" "l" "r"
             ++ "/workflowInvocations", ib⟩] ++ polls) :=
  C5_env_invocation_after_compile "p" "l" "r" "w"
    ⟨true, ⟨200, "", .obj [("releaseConfig", .str "rc")]⟩,
     ⟨200, "", .obj [("releaseCompilationResult",
       .str "projects/p/compilationResults/c")]⟩,
     ⟨200, "", .obj []⟩, ⟨200, "", .obj []⟩,
     ⟨200, "", .obj [("name", .str "inv1")]⟩,
     fun _ => "SUCCEEDED"⟩ 30 10 1
    ⟨⟨.post, DATAFORM_API ++ "/" ++ repo_path "p" "l" "r" ++ "/workflowInvocations",
      some (.obj [("workflowConfig", .str (workflow_config_path "p" "l" "r" "w"))])⟩,
     List.mem_cons_of_mem _ (List.mem_cons_of_mem _ (List.mem_cons_self _ _)),
     rfl, rfl⟩
